import Mathlib

/-!
# The moderation pipeline of the anonymous "Cry Out" Telegram bot

A shallow embedding of `main.go`: the per-user submission gate (the two maps
`userLastMessageTime` and `userLastMessage`), the classifier adapter
`verifyMessageWithOpenAI`, and the body of the update loop `processUpdates`.

Conventions of the embedding.

* Go strings that reach the program through JSON decoding are valid UTF-8, so a
  string is a list of Unicode scalar values and the `strings` functions act on
  `String.data`.
* A point in time is the reading of the process's monotonic clock in
  nanoseconds (`time.Now()` always carries one and `time.Since` subtracts
  monotonic readings); a `time.Duration` is a number of nanoseconds.
* The external services are oracles: a `World` gives, for the processing of one
  update, the answer of the classifier to a request, the answer of the Telegram
  API to a send, and the two clock readings.
* An unrecovered Go panic ends the process; the embedding returns `panicked`
  with the calls made so far and no gate state, since the maps die with the
  process.
* `mu.Lock()`/`mu.Unlock()` and the `log` calls have no effect on the values
  studied here and are left out: the loop is the only goroutine that touches
  the maps.
-/

namespace CryOut

/-! ## Go standard library: `unicode`, `strings`, `strconv`, `time` -/

/-- Go's `unicode.IsSpace`: the Latin-1 cases `\t \n \v \f \r`, space, U+0085,
U+00A0, and above Latin-1 the code points with the `White_Space` property. -/
def IsSpace (r : Char) : Bool :=
  let n := r.toNat
  (0x09 ≤ n && n ≤ 0x0D) || n == 0x20 || n == 0x85 || n == 0xA0 || n == 0x1680 ||
    (0x2000 ≤ n && n ≤ 0x200A) || n == 0x2028 || n == 0x2029 || n == 0x202F ||
    n == 0x205F || n == 0x3000

/-- Go's `strings.TrimSpace`: the string without its leading and trailing
white space (`TrimRightFunc (TrimLeftFunc s IsSpace) IsSpace`). -/
def TrimSpace (s : String) : String :=
  ⟨((s.data.dropWhile IsSpace).reverse.dropWhile IsSpace).reverse⟩

/-- Go's `strings.ToLower`: `unicode.ToLower` applied to every rune. The rune
mapping `toLower` stands for the Unicode case table compiled into the Go
toolchain the bot is built with; it is a parameter of the development. -/
def ToLower (toLower : Char → Char) (s : String) : String :=
  ⟨s.data.map toLower⟩

/-- Go's `strings.HasPrefix`. -/
def HasPrefix (s pre : String) : Bool :=
  pre.data.isPrefixOf s.data

/-- Go's `strings.TrimPrefix`: `s` without the leading `pre` when `s` starts
with it, and `s` itself otherwise. -/
def TrimPrefix (s pre : String) : String :=
  if HasPrefix s pre then ⟨s.data.drop pre.data.length⟩ else s

/-- Go's `strconv.Itoa`: the decimal numeral of an integer, with a leading
minus sign for a negative one. -/
def Itoa (n : Int) : String :=
  if n < 0 then "-" ++ Nat.repr n.natAbs else Nat.repr n.toNat

/-- One minute as a `time.Duration` (nanoseconds). -/
def Minute : Int := 60 * 1000000000

/-- The largest `time.Duration`, `1<<63 - 1`. -/
def maxDuration : Int := 2 ^ 63 - 1

/-- The smallest `time.Duration`, `-1 << 63`. -/
def minDuration : Int := -(2 ^ 63)

/-- Go's `time.Since t` when the clock reads `now`: the difference of the two
monotonic readings, saturated to the range of a `time.Duration`. -/
def Since (now t : Int) : Int :=
  let d := now - t
  if d > maxDuration then maxDuration else if d < minDuration then minDuration else d

/-! ## Types of the two client libraries, as far as `main.go` uses them -/

/-- The `tgbotapi.User` fields read by the loop. -/
structure User where
  ID : Int
  UserName : String
deriving DecidableEq, Repr

/-- The `tgbotapi.Chat` field read by the loop. -/
structure Chat where
  ID : Int
deriving DecidableEq, Repr

/-- The `tgbotapi.Message` fields read by the loop. In the library `From` and
`Chat` are pointers (`*User`, `*Chat`), so either may be nil. -/
structure Message where
  MessageID : Int
  From : Option User
  Chat : Option Chat
  Text : String
deriving DecidableEq, Repr

/-- The `tgbotapi.Update` field read by the loop; `Message` is a pointer. -/
structure Update where
  Message : Option Message
deriving DecidableEq, Repr

/-- What `bot.Send` is given: `tgbotapi.NewMessage chatID text` or
`tgbotapi.NewMessageToChannel username text`. -/
inductive Chattable where
  | NewMessage (chatID : Int) (text : String)
  | NewMessageToChannel (username : String) (text : String)
deriving DecidableEq, Repr

/-- The `openai.ChatCompletionMessage` fields used. -/
structure ChatCompletionMessage where
  Role : String
  Content : String
deriving DecidableEq, Repr

/-- The `openai.ChatCompletionRequest` fields set by `verifyMessageWithOpenAI`. -/
structure ChatCompletionRequest where
  Model : String
  Messages : List ChatCompletionMessage
  MaxTokens : Int
deriving DecidableEq, Repr

/-- The `openai.ChatCompletionChoice` field read. -/
structure ChatCompletionChoice where
  Message : ChatCompletionMessage
deriving DecidableEq, Repr

/-- The `openai.ChatCompletionResponse` field read. -/
structure ChatCompletionResponse where
  Choices : List ChatCompletionChoice
deriving DecidableEq, Repr

/-- The model constant `openai.GPT3Dot5Turbo`. -/
def GPT3Dot5Turbo : String := "gpt-3.5-turbo"

/-- What the outside world answers while one update is processed: the
environment variable `OPENAI_PROMPT` (empty when unset), the classifier's
answer to a request, Telegram's answer to a send (either may be a Go `error`,
here its text), the clock reading at `time.Since` (line 141) and the clock
reading at `time.Now()` (line 177). -/
structure World where
  OPENAI_PROMPT : String
  CreateChatCompletion : ChatCompletionRequest → Except String ChatCompletionResponse
  Send : Chattable → Except String Message
  clockAtCheck : Int
  clockAtCommit : Int

/-- A call to an external service made while an update is processed. -/
inductive Effect where
  | CreateChatCompletion (request : ChatCompletionRequest)
  | Send (c : Chattable)
deriving DecidableEq, Repr

/-! ## The classifier adapter (`main.go` lines 35-55) -/

/-- The prompt used when `OPENAI_PROMPT` is unset (line 38). -/
def defaultPrompt : String :=
  "Проверь, соответствует ли сообщение следующим критериям: написано преимущественно на русском языке, не содержит грубых ругательств (допускаются слова с символами \x27*\x27), а цель сообщения — пожаловаться, выплакаться, выговориться публично. Ответь только \x27да\x27 или \x27нет\x27. Сообщение:\n\n"

/-- The request built at lines 36-47 for a candidate `message`. -/
def chatCompletionRequest (w : World) (message : String) : ChatCompletionRequest :=
  let prompt := if w.OPENAI_PROMPT = "" then defaultPrompt else w.OPENAI_PROMPT
  { Model := GPT3Dot5Turbo
    Messages := [{ Role := "system", Content := prompt ++ message }]
    MaxTokens := 10 }

/-- How a call of `verifyMessageWithOpenAI` ends: it returns its three results
`(valid, answer, err)` with `err = none` for Go's nil, or the index expression
`resp.Choices[0]` panics. -/
inductive Verdict where
  | returned (valid : Bool) (answer : String) (err : Option String)
  | indexOutOfRange
deriving DecidableEq, Repr

/-- The function `verifyMessageWithOpenAI` (lines 35-55). -/
def verifyMessageWithOpenAI (toLower : Char → Char) (w : World) (message : String) : Verdict :=
  match w.CreateChatCompletion (chatCompletionRequest w message) with
  | .error err => .returned false "" (some err)
  | .ok resp =>
    match resp.Choices with
    | [] => .indexOutOfRange
    | choice :: _ =>
      let answer := ToLower toLower (TrimSpace choice.Message.Content)
      .returned (decide (answer = "да")) answer none

/-! ## The submission gate (lines 28-33) -/

/-- The two package-level maps. A Go map lookup of a missing key gives the zero
value and `false`; here a missing key is `none`. -/
structure Gate where
  userLastMessageTime : Int → Option Int
  userLastMessage : Int → Option String

/-- The maps as `make` leaves them at start-up. -/
def Gate.empty : Gate :=
  { userLastMessageTime := fun _ => none, userLastMessage := fun _ => none }

/-- The value of `rateLimitDuration` (line 32): twenty minutes. -/
def rateLimitDuration : Int := 20 * Minute

/-- The two assignments of lines 177-178. -/
def Gate.commit (g : Gate) (userID : Int) (now : Int) (userMessage : String) : Gate :=
  { userLastMessageTime := fun k => if k = userID then some now else g.userLastMessageTime k
    userLastMessage := fun k => if k = userID then some userMessage else g.userLastMessage k }

/-! ## The update loop (lines 114-185) -/

/-- The text of `rulesMessage` (lines 115-118). -/
def rulesMessage : String :=
  "📝 Правила отправки сообщений:\n\n" ++
    "1. Цель сообщения – выплеснуть эмоции и получить поддержку.\n" ++
    "2. Сообщение должно быть преимущественно на русском языке.\n" ++
    "3. Запрещены грубые матерные выражения."

/-- The cooldown notice (line 143). -/
def rateLimitedNotice : String := "⏳ Вы можете отправлять одно сообщение раз в 20 минут."

/-- The duplicate notice (line 149). -/
def duplicateNotice : String := "⚠️ Вы уже отправляли такое сообщение ранее."

/-- The notice sent when the classifier call fails (line 158). -/
def classifyFailedNotice : String := "🚫 Ошибка проверки. Попробуйте позже."

/-- The notice sent on a negative verdict (line 165). -/
def rejectedPolicyNotice : String := "🚫 Сообщение не соответствует правилам.\n\n" ++ rulesMessage

/-- The notice sent when the channel post fails (line 172). -/
def publishFailedNotice : String := "🚫 Ошибка публикации. Попробуйте позже."

/-- The deep link built at line 181. -/
def link (channelName : String) (messageID : Int) : String :=
  "https://t.me/" ++ TrimPrefix channelName "@" ++ "/" ++ Itoa messageID

/-- The branch of the loop body in which the processing of one update ends
(each ends in `continue` or at the end of the body). -/
inductive Outcome where
  | ignored
  | rules
  | rateLimited
  | duplicate
  | classifyFailed
  | rejectedPolicy
  | publishFailed
  | published
deriving DecidableEq, Repr

/-- How the processing of one update ends: the loop body completes with the
gate state it leaves, the external calls it made in order, and the branch
taken; or it panics after the calls made so far. -/
inductive Result where
  | completed (gate : Gate) (effects : List Effect) (outcome : Outcome)
  | panicked (effects : List Effect)

/-- The external calls made, whether the body completed or panicked. -/
def Result.effects : Result → List Effect
  | .completed _ effects _ => effects
  | .panicked effects => effects

/-- The gate state left behind by a body that completed. -/
def Result.gate? : Result → Option Gate
  | .completed gate _ _ => some gate
  | .panicked _ => none

/-- The branch taken by a body that completed. -/
def Result.outcome? : Result → Option Outcome
  | .completed _ _ outcome => some outcome
  | .panicked _ => none

/-- The statement `bot.Send(tgbotapi.NewMessage(update.Message.Chat.ID, text))`
followed by the end of the body: evaluating the argument dereferences
`Chat`, which panics when it is nil; the result of the send is discarded. -/
def reply (m : Message) (g : Gate) (effects : List Effect) (text : String)
    (outcome : Outcome) : Result :=
  match m.Chat with
  | none => .panicked effects
  | some chat => .completed g (effects ++ [.Send (.NewMessage chat.ID text)]) outcome

/-- The body of the `case update := <-updates` branch (lines 126-182) for one
update, started in gate state `g`. -/
def processUpdate (toLower : Char → Char) (w : World) (channelName : String) (g : Gate)
    (update : Update) : Result :=
  match update.Message with
  | none => .completed g [] .ignored
  | some m =>
    if m.Text = "" then .completed g [] .ignored
    else
      match m.From with
      | none => .panicked []
      | some sender =>
        let userID := sender.ID
        let userMessage := m.Text
        if userMessage = "/start" then reply m g [] rulesMessage .rules
        else
          let lastMsg := (g.userLastMessage userID).getD ""
          let limited :=
            match g.userLastMessageTime userID with
            | some lastTime => decide (Since w.clockAtCheck lastTime < rateLimitDuration)
            | none => false
          if limited then reply m g [] rateLimitedNotice .rateLimited
          else if lastMsg = userMessage then reply m g [] duplicateNotice .duplicate
          else
            let call := Effect.CreateChatCompletion (chatCompletionRequest w userMessage)
            match verifyMessageWithOpenAI toLower w userMessage with
            | .indexOutOfRange => .panicked [call]
            | .returned _ _ (some _) => reply m g [call] classifyFailedNotice .classifyFailed
            | .returned valid _ none =>
              if !valid then reply m g [call] rejectedPolicyNotice .rejectedPolicy
              else
                let post := Chattable.NewMessageToChannel channelName userMessage
                match w.Send post with
                | .error _ => reply m g [call, .Send post] publishFailedNotice .publishFailed
                | .ok channelMsg =>
                  reply m (g.commit userID w.clockAtCommit userMessage) [call, .Send post]
                    ("✅ Сообщение опубликовано: " ++ link channelName channelMsg.MessageID)
                    .published

/-- What the `select` of line 121 receives: the cancellation of the context,
or an update together with the world's answers while it is processed. -/
inductive Event where
  | done
  | update (u : Update) (w : World)

/-- How a run of the loop over a finite sequence of events stands at its end:
blocked in `select` waiting for the next event, returned after cancellation, or
crashed by a panic. -/
inductive Run where
  | waiting (gate : Gate) (effects : List Effect)
  | returned (gate : Gate) (effects : List Effect)
  | crashed (effects : List Effect)

/-- Prefix a run with the calls made before it. -/
def Run.after (effects : List Effect) : Run → Run
  | .waiting g es => .waiting g (effects ++ es)
  | .returned g es => .returned g (effects ++ es)
  | .crashed es => .crashed (effects ++ es)

/-- The function `processUpdates` (lines 114-185) over the events the `select`
receives, in order. -/
def processUpdates (toLower : Char → Char) (channelName : String) : Gate → List Event → Run
  | g, [] => .waiting g []
  | g, .done :: _ => .returned g []
  | g, .update u w :: rest =>
    match processUpdate toLower w channelName g u with
    | .panicked effects => .crashed effects
    | .completed g1 effects _ => (processUpdates toLower channelName g1 rest).after effects

/-! ## Observations on the calls made -/

/-- The texts sent to the chat `chatID`, in order. -/
def repliesTo (chatID : Int) : List Effect → List String
  | [] => []
  | .Send (.NewMessage c text) :: rest =>
    if c = chatID then text :: repliesTo chatID rest else repliesTo chatID rest
  | _ :: rest => repliesTo chatID rest

/-- The channel posts made, as pairs of channel name and text, in order. -/
def channelPosts : List Effect → List (String × String)
  | [] => []
  | .Send (.NewMessageToChannel username text) :: rest => (username, text) :: channelPosts rest
  | _ :: rest => channelPosts rest

/-- The classifier requests made, in order. -/
def classifierCalls : List Effect → List ChatCompletionRequest
  | [] => []
  | .CreateChatCompletion request :: rest => request :: classifierCalls rest
  | _ :: rest => classifierCalls rest

/-- The external calls made during a run of the loop. -/
def Run.effects : Run → List Effect
  | .waiting _ effects => effects
  | .returned _ effects => effects
  | .crashed effects => effects

/-- The gate state of a run that has not crashed. -/
def Run.gate? : Run → Option Gate
  | .waiting gate _ => some gate
  | .returned gate _ => some gate
  | .crashed _ => none

/-- Whether a run of the loop ended in a panic. -/
def Run.isCrashed : Run → Bool
  | .crashed _ => true
  | _ => false

/-! ## The invariant of the gate, and the deep link in the words of the specification -/

/-- The invariant of the gate: the two maps have the same keys, and a recorded
text is neither empty nor the bootstrap command. -/
def Gate.Sound (g : Gate) : Prop :=
  ∀ u : Int, (g.userLastMessageTime u = none ↔ g.userLastMessage u = none) ∧
    ∀ T : String, g.userLastMessage u = some T → T ≠ "" ∧ T ≠ "/start"

/-- The channel part of the deep link as the specification words it: the
channel name without its leading `@` when it starts with `@`, and the channel
name itself otherwise. -/
def channelWithoutAt (c : String) : String :=
  match c.data with
  | [] => c
  | first :: rest => if first = '@' then ⟨rest⟩ else c

/-! ## Sample inputs on which the definitions are evaluated -/

/-- A rune mapping that lower-cases Basic Latin and the Cyrillic block
U+0400-U+042F and leaves every other rune alone: the restriction of the Unicode
simple lower-case mapping to the alphabets the bot is answered in. It serves to
evaluate the definitions on concrete classifier answers. -/
def lowerBasic (c : Char) : Char :=
  let n := c.toNat
  if 0x41 ≤ n ∧ n ≤ 0x5A then Char.ofNat (n + 32)
  else if 0x410 ≤ n ∧ n ≤ 0x42F then Char.ofNat (n + 32)
  else if 0x400 ≤ n ∧ n ≤ 0x40F then Char.ofNat (n + 80)
  else c

/-- The update carrying a text message `text` from `sender` in chat `chat`. -/
def Update.text (sender : User) (chat : Chat) (text : String) : Update :=
  { Message := some { MessageID := 0, From := some sender, Chat := some chat, Text := text } }

/-- A world in which the classifier answers every request with the single
choice `content` and every send succeeds with message identifier `messageID`. -/
def World.answering (content : String) (messageID : Int) (check commit : Int) : World :=
  { OPENAI_PROMPT := ""
    CreateChatCompletion := fun _ =>
      .ok { Choices := [{ Message := { Role := "assistant", Content := content } }] }
    Send := fun _ => .ok { MessageID := messageID, From := none, Chat := none, Text := "" }
    clockAtCheck := check
    clockAtCommit := commit }

/-- A world in which the classifier call fails with a transport error. -/
def World.classifierDown (check : Int) : World :=
  { OPENAI_PROMPT := ""
    CreateChatCompletion := fun _ => .error "timeout"
    Send := fun _ => .ok { MessageID := 1, From := none, Chat := none, Text := "" }
    clockAtCheck := check
    clockAtCommit := check }

/-- A world in which the classifier call succeeds with a response that carries
no choice at all. -/
def World.noChoices (check : Int) : World :=
  { OPENAI_PROMPT := ""
    CreateChatCompletion := fun _ => .ok { Choices := [] }
    Send := fun _ => .ok { MessageID := 1, From := none, Chat := none, Text := "" }
    clockAtCheck := check
    clockAtCommit := check }

/-! ## Lemmas: time, strings, the gate invariant -/

/-- The rate limit window in nanoseconds. -/
theorem rateLimitDuration_eq : rateLimitDuration = 1200000000000 := by
  norm_num [rateLimitDuration, Minute]

/-- Saturation never decides the comparison with the rate limit window. -/
theorem Since_lt_iff (now t : Int) :
    Since now t < rateLimitDuration ↔ now - t < rateLimitDuration := by
  have h1 : maxDuration = 9223372036854775807 := by norm_num [maxDuration]
  have h2 : minDuration = -9223372036854775808 := by norm_num [minDuration]
  rw [rateLimitDuration_eq]
  unfold Since
  simp only [h1, h2]
  split_ifs <;> omega

/-- The confirmation of a publication is neither of the two gate notices. -/
theorem confirmation_ne_notice (x : String) :
    "✅ Сообщение опубликовано: " ++ x ≠ rateLimitedNotice ∧
      "✅ Сообщение опубликовано: " ++ x ≠ duplicateNotice := by
  have key : ∀ n : String, n.data.head? ≠ some '✅' → "✅ Сообщение опубликовано: " ++ x ≠ n := by
    intro n hn h
    apply hn
    rw [← h, String.data_append]
    rfl
  exact ⟨key _ (by decide), key _ (by decide)⟩

/-- The code's `strings.TrimPrefix channelName "@"` is the channel part the
specification describes. -/
theorem TrimPrefix_at (c : String) : TrimPrefix c "@" = channelWithoutAt c := by
  have hdata : ("@" : String).data = ['@'] := rfl
  unfold TrimPrefix HasPrefix channelWithoutAt
  rw [hdata]
  cases hc : c.data with
  | nil => simp [List.isPrefixOf]
  | cons first rest =>
    by_cases hf : first = '@'
    · subst hf
      simp [List.isPrefixOf]
    · have hf2 : ¬ '@' = first := fun h => hf h.symm
      simp [List.isPrefixOf, hf, hf2]

/-- Below the surrogate range `Char.ofNat` is the rune with that code point. -/
theorem toNat_ofNat_small (k : Nat) (h : k < 0xd800) : (Char.ofNat k).toNat = k := by
  have hv : k.isValidChar := Or.inl h
  unfold Char.ofNat
  rw [dif_pos hv]
  simp [Char.ofNatAux, Char.toNat, UInt32.toNat]

/-- The sample rune mapping neither makes nor unmakes white space. -/
theorem lowerBasic_IsSpace (r : Char) : IsSpace (lowerBasic r) = IsSpace r := by
  unfold lowerBasic
  simp only []
  split_ifs with h1 h2 h3
  · have e : (Char.ofNat (r.toNat + 32)).toNat = r.toNat + 32 :=
      toNat_ofNat_small _ (by omega)
    have a : IsSpace r = false := by
      simp only [IsSpace, Bool.or_eq_false_iff, Bool.and_eq_false_iff, decide_eq_false_iff_not,
        beq_eq_false_iff_ne]
      omega
    have b : IsSpace (Char.ofNat (r.toNat + 32)) = false := by
      simp only [IsSpace, e, Bool.or_eq_false_iff, Bool.and_eq_false_iff,
        decide_eq_false_iff_not, beq_eq_false_iff_ne]
      omega
    rw [a, b]
  · have e : (Char.ofNat (r.toNat + 32)).toNat = r.toNat + 32 :=
      toNat_ofNat_small _ (by omega)
    have a : IsSpace r = false := by
      simp only [IsSpace, Bool.or_eq_false_iff, Bool.and_eq_false_iff, decide_eq_false_iff_not,
        beq_eq_false_iff_ne]
      omega
    have b : IsSpace (Char.ofNat (r.toNat + 32)) = false := by
      simp only [IsSpace, e, Bool.or_eq_false_iff, Bool.and_eq_false_iff,
        decide_eq_false_iff_not, beq_eq_false_iff_ne]
      omega
    rw [a, b]
  · have e : (Char.ofNat (r.toNat + 80)).toNat = r.toNat + 80 :=
      toNat_ofNat_small _ (by omega)
    have a : IsSpace r = false := by
      simp only [IsSpace, Bool.or_eq_false_iff, Bool.and_eq_false_iff, decide_eq_false_iff_not,
        beq_eq_false_iff_ne]
      omega
    have b : IsSpace (Char.ofNat (r.toNat + 80)) = false := by
      simp only [IsSpace, e, Bool.or_eq_false_iff, Bool.and_eq_false_iff,
        decide_eq_false_iff_not, beq_eq_false_iff_ne]
      omega
    rw [a, b]
  · rfl

/-- Lower-casing keeps the number of runes. -/
theorem ToLower_length (toLower : Char → Char) (s : String) :
    (ToLower toLower s).length = s.length := by
  show (s.data.map toLower).length = s.data.length
  exact List.length_map _ _

/-- Lower-casing and trimming commute when the rune mapping neither makes nor
unmakes white space. -/
theorem ToLower_TrimSpace_comm (toLower : Char → Char)
    (hspace : ∀ r, IsSpace (toLower r) = IsSpace r) (s : String) :
    ToLower toLower (TrimSpace s) = TrimSpace (ToLower toLower s) := by
  have hcomp : IsSpace ∘ toLower = IsSpace := funext hspace
  show String.mk (((s.data.dropWhile IsSpace).reverse.dropWhile IsSpace).reverse.map toLower) =
    String.mk (((s.data.map toLower).dropWhile IsSpace).reverse.dropWhile IsSpace).reverse
  rw [List.dropWhile_map, hcomp, ← List.map_reverse, List.dropWhile_map, hcomp,
    ← List.map_reverse]

/-- The maps of start-up are sound. -/
theorem Gate.empty_sound : Gate.empty.Sound := by
  intro u
  simp [Gate.empty]

/-- Recording a text that is neither empty nor the bootstrap command keeps the
gate sound. -/
theorem Gate.commit_sound (g : Gate) (hg : g.Sound) (userID now : Int) (T : String)
    (hT : T ≠ "") (hs : T ≠ "/start") : (g.commit userID now T).Sound := by
  intro u
  by_cases hu : u = userID
  · subst hu
    simp only [Gate.commit, if_true]
    refine ⟨by simp, ?_⟩
    intro T1 h
    have : T = T1 := by simpa using h
    subst this
    exact ⟨hT, hs⟩
  · simp only [Gate.commit, if_neg hu]
    exact hg u

/-! ## Lemmas: the shape of the loop body -/

/-- The shape of the loop body on a text message that is not the bootstrap
command: the gate check of lines 138-153 and what follows it. -/
theorem processUpdate_gate (toLower : Char → Char) (w : World) (channelName : String) (g : Gate)
    (m : Message) (sender : User) (hfrom : m.From = some sender)
    (hT : m.Text ≠ "") (hs : m.Text ≠ "/start") :
    processUpdate toLower w channelName g ⟨some m⟩ =
      if (match g.userLastMessageTime sender.ID with
          | some lastTime => decide (Since w.clockAtCheck lastTime < rateLimitDuration)
          | none => false) = true
      then reply m g [] rateLimitedNotice .rateLimited
      else if (g.userLastMessage sender.ID).getD "" = m.Text
      then reply m g [] duplicateNotice .duplicate
      else
        match verifyMessageWithOpenAI toLower w m.Text with
        | .indexOutOfRange =>
          .panicked [Effect.CreateChatCompletion (chatCompletionRequest w m.Text)]
        | .returned _ _ (some _) =>
          reply m g [Effect.CreateChatCompletion (chatCompletionRequest w m.Text)]
            classifyFailedNotice .classifyFailed
        | .returned valid _ none =>
          if !valid then
            reply m g [Effect.CreateChatCompletion (chatCompletionRequest w m.Text)]
              rejectedPolicyNotice .rejectedPolicy
          else
            match w.Send (Chattable.NewMessageToChannel channelName m.Text) with
            | .error _ =>
              reply m g [Effect.CreateChatCompletion (chatCompletionRequest w m.Text),
                .Send (Chattable.NewMessageToChannel channelName m.Text)]
                publishFailedNotice .publishFailed
            | .ok channelMsg =>
              reply m (g.commit sender.ID w.clockAtCommit m.Text)
                [Effect.CreateChatCompletion (chatCompletionRequest w m.Text),
                  .Send (Chattable.NewMessageToChannel channelName m.Text)]
                ("✅ Сообщение опубликовано: " ++ link channelName channelMsg.MessageID)
                .published := by
  simp only [processUpdate, hfrom, if_neg hT, if_neg hs]

/-- What the loop body does with a text message that passes the gate check: the
classifier is called first, and the body ends in one of five ways. -/
theorem processUpdate_allowed (toLower : Char → Char) (w : World) (channelName : String)
    (g : Gate) (m : Message) (sender : User) (chat : Chat)
    (hfrom : m.From = some sender) (hchat : m.Chat = some chat)
    (hT : m.Text ≠ "") (hs : m.Text ≠ "/start")
    (hnl : ∀ t, g.userLastMessageTime sender.ID = some t → rateLimitDuration ≤ w.clockAtCheck - t)
    (hnd : (g.userLastMessage sender.ID).getD "" ≠ m.Text) :
    processUpdate toLower w channelName g ⟨some m⟩ =
        .panicked [.CreateChatCompletion (chatCompletionRequest w m.Text)] ∨
      processUpdate toLower w channelName g ⟨some m⟩ =
        .completed g [.CreateChatCompletion (chatCompletionRequest w m.Text),
          .Send (.NewMessage chat.ID classifyFailedNotice)] .classifyFailed ∨
      processUpdate toLower w channelName g ⟨some m⟩ =
        .completed g [.CreateChatCompletion (chatCompletionRequest w m.Text),
          .Send (.NewMessage chat.ID rejectedPolicyNotice)] .rejectedPolicy ∨
      processUpdate toLower w channelName g ⟨some m⟩ =
        .completed g [.CreateChatCompletion (chatCompletionRequest w m.Text),
          .Send (.NewMessageToChannel channelName m.Text),
          .Send (.NewMessage chat.ID publishFailedNotice)] .publishFailed ∨
      ∃ channelMsg : Message,
        w.Send (.NewMessageToChannel channelName m.Text) = .ok channelMsg ∧
        processUpdate toLower w channelName g ⟨some m⟩ =
          .completed (g.commit sender.ID w.clockAtCommit m.Text)
            [.CreateChatCompletion (chatCompletionRequest w m.Text),
              .Send (.NewMessageToChannel channelName m.Text),
              .Send (.NewMessage chat.ID
                ("✅ Сообщение опубликовано: " ++ link channelName channelMsg.MessageID))]
            .published := by
  have hlim : (match g.userLastMessageTime sender.ID with
      | some lastTime => decide (Since w.clockAtCheck lastTime < rateLimitDuration)
      | none => false) = false := by
    cases hrec : g.userLastMessageTime sender.ID with
    | none => rfl
    | some t =>
      have := hnl t hrec
      simp only [decide_eq_false_iff_not, Since_lt_iff]
      omega
  rw [processUpdate_gate toLower w channelName g m sender hfrom hT hs, hlim]
  simp only [Bool.false_eq_true, if_false, if_neg hnd]
  cases hv : verifyMessageWithOpenAI toLower w m.Text with
  | indexOutOfRange => exact Or.inl rfl
  | returned valid answer err =>
    cases err with
    | some e => right; left; simp [reply, hchat]
    | none =>
      cases valid with
      | false => right; right; left; simp [reply, hchat]
      | true =>
        cases hsend : w.Send (.NewMessageToChannel channelName m.Text) with
        | error e => right; right; right; left; simp [reply, hchat]
        | ok channelMsg =>
          right; right; right; right
          exact ⟨channelMsg, rfl, by simp [reply, hchat]⟩

/-- A text message that passes the gate check reaches the classifier, and the
body then neither ends in a gate rejection nor sends a gate notice. -/
theorem proceeds_to_classifier (toLower : Char → Char) (w : World) (channelName : String)
    (g : Gate) (m : Message) (sender : User) (chat : Chat)
    (hfrom : m.From = some sender) (hchat : m.Chat = some chat)
    (hT : m.Text ≠ "") (hs : m.Text ≠ "/start")
    (hnl : ∀ t, g.userLastMessageTime sender.ID = some t → rateLimitDuration ≤ w.clockAtCheck - t)
    (hnd : (g.userLastMessage sender.ID).getD "" ≠ m.Text) :
    (processUpdate toLower w channelName g ⟨some m⟩).effects.head? =
        some (.CreateChatCompletion (chatCompletionRequest w m.Text)) ∧
      classifierCalls (processUpdate toLower w channelName g ⟨some m⟩).effects =
        [chatCompletionRequest w m.Text] ∧
      (processUpdate toLower w channelName g ⟨some m⟩).outcome? ≠ some .rateLimited ∧
      (processUpdate toLower w channelName g ⟨some m⟩).outcome? ≠ some .duplicate ∧
      rateLimitedNotice ∉ repliesTo chat.ID
        (processUpdate toLower w channelName g ⟨some m⟩).effects ∧
      duplicateNotice ∉ repliesTo chat.ID
        (processUpdate toLower w channelName g ⟨some m⟩).effects := by
  have hc1 := fun x => (confirmation_ne_notice x).1
  have hc2 := fun x => (confirmation_ne_notice x).2
  rcases processUpdate_allowed toLower w channelName g m sender chat hfrom hchat hT hs hnl hnd
    with h | h | h | h | ⟨channelMsg, _, h⟩ <;> rw [h] <;>
    simp [Result.effects, Result.outcome?, classifierCalls, repliesTo] <;>
    first
      | decide
      | exact ⟨fun h => hc1 _ h.symm, fun h => hc2 _ h.symm⟩

/-- A body that completes in a branch behind the gate check was given a text
message with a sender and a chat, other than the bootstrap command, that the
gate check let through. -/
theorem passed_gate_of_outcome (toLower : Char → Char) (w : World) (channelName : String)
    (g g1 : Gate) (update : Update) (effects : List Effect) (o : Outcome)
    (h : processUpdate toLower w channelName g update = .completed g1 effects o)
    (ho : o = .classifyFailed ∨ o = .rejectedPolicy ∨ o = .publishFailed ∨ o = .published) :
    ∃ (m : Message) (sender : User) (chat : Chat),
      update = ⟨some m⟩ ∧ m.From = some sender ∧ m.Chat = some chat ∧
      m.Text ≠ "" ∧ m.Text ≠ "/start" ∧
      (∀ t, g.userLastMessageTime sender.ID = some t →
        rateLimitDuration ≤ w.clockAtCheck - t) ∧
      (g.userLastMessage sender.ID).getD "" ≠ m.Text := by
  obtain ⟨msg⟩ := update
  cases msg with
  | none =>
    simp only [processUpdate] at h
    cases h
    simp at ho
  | some m =>
    by_cases hT : m.Text = ""
    · simp only [processUpdate, hT, if_true] at h
      cases h
      simp at ho
    cases hfrom : m.From with
    | none =>
      simp only [processUpdate, hT, hfrom, if_false] at h
      cases h
    | some sender =>
      by_cases hs : m.Text = "/start"
      · simp only [processUpdate, hfrom, hs, reply, if_true] at h
        repeat' split at h
        all_goals cases h
        all_goals simp at ho
      rw [processUpdate_gate toLower w channelName g m sender hfrom hT hs] at h
      cases hchat : m.Chat with
      | none =>
        simp only [reply, hchat] at h
        repeat' split at h
        all_goals cases h
      | some chat =>
        refine ⟨m, sender, chat, rfl, hfrom, hchat, hT, hs, ?_, ?_⟩
        · intro t ht
          by_contra hlt
          have hlt1 : Since w.clockAtCheck t < rateLimitDuration := by
            rw [Since_lt_iff]; omega
          simp only [ht, hlt1, decide_True, if_true, reply, hchat] at h
          cases h
          simp at ho
        · intro hdup
          simp only [hdup, if_true, reply, hchat] at h
          split at h
          all_goals cases h
          all_goals simp at ho

/-- A body that completes in a branch other than `published` leaves the gate as
it found it. -/
theorem gate_eq_of_not_published (toLower : Char → Char) (w : World) (channelName : String)
    (g g1 : Gate) (update : Update) (effects : List Effect) (o : Outcome)
    (h : processUpdate toLower w channelName g update = .completed g1 effects o)
    (hne : o ≠ .published) : g1 = g := by
  obtain ⟨msg⟩ := update
  cases msg with
  | none =>
    simp only [processUpdate] at h
    cases h
    rfl
  | some m =>
    by_cases hT : m.Text = ""
    · simp only [processUpdate, hT, if_true] at h
      cases h
      rfl
    cases hfrom : m.From with
    | none =>
      simp only [processUpdate, hT, hfrom, if_false] at h
      cases h
    | some sender =>
      by_cases hs : m.Text = "/start"
      · simp only [processUpdate, hfrom, hs, reply, if_true] at h
        repeat' split at h
        all_goals cases h
        all_goals rfl
      rw [processUpdate_gate toLower w channelName g m sender hfrom hT hs] at h
      simp only [reply] at h
      repeat' split at h
      all_goals cases h
      all_goals first
        | rfl
        | exact absurd rfl hne

/-- The loop body keeps the gate sound. -/
theorem processUpdate_sound (toLower : Char → Char) (w : World) (channelName : String)
    (g g1 : Gate) (update : Update) (effects : List Effect) (o : Outcome) (hg : g.Sound)
    (h : processUpdate toLower w channelName g update = .completed g1 effects o) :
    g1.Sound := by
  by_cases hp : o = .published
  · subst hp
    obtain ⟨m, sender, chat, rfl, hfrom, hchat, hT, hs, hnl, hnd⟩ :=
      passed_gate_of_outcome toLower w channelName g g1 _ effects .published h
        (Or.inr (Or.inr (Or.inr rfl)))
    rcases processUpdate_allowed toLower w channelName g m sender chat hfrom hchat hT hs hnl hnd
      with h1 | h1 | h1 | h1 | ⟨channelMsg, _, h1⟩ <;> rw [h1] at h <;> cases h
    exact Gate.commit_sound g hg _ _ _ hT hs
  · rw [gate_eq_of_not_published toLower w channelName g g1 update effects o h hp]
    exact hg

/-- Every gate state the loop reaches from a sound one is sound; in particular
every state reached from the empty maps of start-up. -/
theorem processUpdates_sound (toLower : Char → Char) (channelName : String)
    (events : List Event) (g : Gate) (hg : g.Sound) :
    ∀ g1, (processUpdates toLower channelName g events).gate? = some g1 → g1.Sound := by
  induction events generalizing g with
  | nil =>
    intro g1 h
    simp only [processUpdates, Run.gate?, Option.some.injEq] at h
    exact h ▸ hg
  | cons e rest ih =>
    cases e with
    | done =>
      intro g1 h
      simp only [processUpdates, Run.gate?, Option.some.injEq] at h
      exact h ▸ hg
    | update u w =>
      intro g1 h
      simp only [processUpdates] at h
      cases hr : processUpdate toLower w channelName g u with
      | panicked effects =>
        rw [hr] at h
        simp [Run.gate?] at h
      | completed g2 effects o =>
        rw [hr] at h
        have hg2 := processUpdate_sound toLower w channelName g g2 u effects o hg hr
        have hafter : ∀ r : Run, (r.after effects).gate? = r.gate? := by
          intro r
          cases r <;> rfl
        exact ih g2 hg2 g1 ((hafter _).symm.trans h)

/-- An update without a message, or with an empty text, is ignored: no call is
made and the gate is unchanged. -/
theorem ignored_without_text (toLower : Char → Char) (w : World) (channelName : String)
    (g : Gate) (update : Update)
    (h : update.Message = none ∨ ∃ m, update.Message = some m ∧ m.Text = "") :
    processUpdate toLower w channelName g update = .completed g [] .ignored := by
  obtain ⟨msg⟩ := update
  rcases h with h | ⟨m, h, hT⟩
  · simp only at h
    subst h
    rfl
  · simp only at h
    subst h
    simp only [processUpdate, hT, if_true]

/-- The replies of a body that does not panic: when it completes on a text
message, exactly one message has gone to the originating chat; in the
`published` branch the text has been posted once to the channel and the gate
holds the new record, in every other branch the gate is unchanged, and only in
the `published` and `publishFailed` branches was a channel post attempted. -/
theorem one_reply_when_completed (toLower : Char → Char) (w : World) (channelName : String)
    (g g1 : Gate) (m : Message) (chat : Chat) (effects : List Effect) (o : Outcome)
    (hchat : m.Chat = some chat) (hT : m.Text ≠ "")
    (h : processUpdate toLower w channelName g ⟨some m⟩ = .completed g1 effects o) :
    (repliesTo chat.ID effects).length = 1 ∧
      (o = .published →
        channelPosts effects = [(channelName, m.Text)] ∧
          ∃ sender, m.From = some sender ∧ g1 = g.commit sender.ID w.clockAtCommit m.Text) ∧
      (o ≠ .published → g1 = g) ∧
      (o ≠ .published → o ≠ .publishFailed → channelPosts effects = []) := by
  cases hfrom : m.From with
  | none =>
    simp only [processUpdate, hT, hfrom, if_false] at h
    cases h
  | some sender =>
    by_cases hs : m.Text = "/start"
    · simp only [processUpdate, hfrom, if_neg hT, if_pos hs, reply, hchat] at h
      cases h
      simp [repliesTo, channelPosts]
    rw [processUpdate_gate toLower w channelName g m sender hfrom hT hs] at h
    simp only [reply, hchat] at h
    repeat' split at h
    all_goals cases h
    all_goals simp [repliesTo, channelPosts]

/-! ## The claims -/

/-- C1: a user with a record whose last submission is less than the rate limit
window ago gets the cooldown notice and nothing else happens (no classifier
call, no channel post, gate unchanged), whatever text was recorded last. -/
theorem rate_limit_takes_precedence (toLower : Char → Char) (w : World) (channelName : String)
    (g : Gate) (m : Message) (sender : User) (chat : Chat) (lastTime : Int)
    (hfrom : m.From = some sender) (hchat : m.Chat = some chat)
    (hT : m.Text ≠ "") (hs : m.Text ≠ "/start")
    (hrec : g.userLastMessageTime sender.ID = some lastTime)
    (hwin : w.clockAtCheck - lastTime < rateLimitDuration) :
    processUpdate toLower w channelName g ⟨some m⟩ =
      .completed g [.Send (.NewMessage chat.ID rateLimitedNotice)] .rateLimited := by
  rw [processUpdate_gate toLower w channelName g m sender hfrom hT hs]
  have hlt : Since w.clockAtCheck lastTime < rateLimitDuration := (Since_lt_iff _ _).2 hwin
  simp [hrec, hlt, reply, hchat]

/-- Witness of C1: user 7, recorded at clock 100 with another text, writes
again at clock 200. -/
theorem rate_limit_takes_precedence_witness :
    processUpdate lowerBasic (World.answering "да" 42 200 201) "@cry"
        (Gate.empty.commit 7 100 "старое") (Update.text ⟨7, "u"⟩ ⟨70⟩ "новое") =
      .completed (Gate.empty.commit 7 100 "старое")
        [.Send (.NewMessage 70 rateLimitedNotice)] .rateLimited :=
  rate_limit_takes_precedence lowerBasic (World.answering "да" 42 200 201) "@cry"
    (Gate.empty.commit 7 100 "старое") _ ⟨7, "u"⟩ ⟨70⟩ 100 rfl rfl (by decide) (by decide)
    (by simp [Gate.commit]) (by rw [rateLimitDuration_eq]; decide)

/-- C2: a user whose record holds the text `T`, committed at `t1`, and who sends
exactly `T` again when the rate limit window has passed (the boundary
`now - t1 = rateLimitDuration` included) gets the duplicate notice, not the
cooldown notice; the classifier is not called and nothing else happens. -/
theorem duplicate_after_cooldown (toLower : Char → Char) (w : World) (channelName : String)
    (g : Gate) (m : Message) (sender : User) (chat : Chat) (t1 : Int)
    (hg : g.Sound) (hfrom : m.From = some sender) (hchat : m.Chat = some chat)
    (htime : g.userLastMessageTime sender.ID = some t1)
    (hmsg : g.userLastMessage sender.ID = some m.Text)
    (hwin : rateLimitDuration ≤ w.clockAtCheck - t1) :
    processUpdate toLower w channelName g ⟨some m⟩ =
        .completed g [.Send (.NewMessage chat.ID duplicateNotice)] .duplicate ∧
      classifierCalls (processUpdate toLower w channelName g ⟨some m⟩).effects = [] ∧
      duplicateNotice ≠ rateLimitedNotice := by
  obtain ⟨hT, hs⟩ := (hg sender.ID).2 m.Text hmsg
  have hge : ¬ Since w.clockAtCheck t1 < rateLimitDuration := by
    rw [Since_lt_iff]; omega
  have h : processUpdate toLower w channelName g ⟨some m⟩ =
      .completed g [.Send (.NewMessage chat.ID duplicateNotice)] .duplicate := by
    rw [processUpdate_gate toLower w channelName g m sender hfrom hT hs]
    simp [htime, hmsg, hge, reply, hchat]
  refine ⟨h, ?_, by decide⟩
  rw [h]
  rfl

/-- Witness of C2: the record of user 7 was committed at clock 100 and the same
text arrives exactly `rateLimitDuration` later. -/
theorem duplicate_after_cooldown_witness :
    processUpdate lowerBasic (World.answering "да" 42 (100 + rateLimitDuration) 0) "@cry"
          (Gate.empty.commit 7 100 "тяжело") (Update.text ⟨7, "u"⟩ ⟨70⟩ "тяжело") =
        .completed (Gate.empty.commit 7 100 "тяжело")
          [.Send (.NewMessage 70 duplicateNotice)] .duplicate ∧
      classifierCalls (processUpdate lowerBasic
          (World.answering "да" 42 (100 + rateLimitDuration) 0) "@cry"
          (Gate.empty.commit 7 100 "тяжело") (Update.text ⟨7, "u"⟩ ⟨70⟩ "тяжело")).effects = [] ∧
      duplicateNotice ≠ rateLimitedNotice :=
  duplicate_after_cooldown lowerBasic (World.answering "да" 42 (100 + rateLimitDuration) 0) "@cry"
    (Gate.empty.commit 7 100 "тяжело") _ ⟨7, "u"⟩ ⟨70⟩ 100
    (Gate.commit_sound _ Gate.empty_sound 7 100 "тяжело" (by decide) (by decide))
    rfl rfl (by simp [Gate.commit]) (by simp [Gate.commit, Update.text])
    (by simp [World.answering])

/-- C3: when the body completes in any branch other than `published` (ignored,
rules, rate-limited, duplicate, classifier error, negative verdict, publish
failure) the gate afterwards is the gate before; and after a classifier error,
a negative verdict or a publish failure the same update, processed again at any
later clock reading, passes the gate check again: the classifier is called for
its text and the body ends in neither gate rejection. -/
theorem gate_unchanged_unless_published (toLower : Char → Char) (w : World)
    (channelName : String) (g g1 : Gate) (update : Update) (effects : List Effect) (o : Outcome)
    (h : processUpdate toLower w channelName g update = .completed g1 effects o)
    (hne : o ≠ .published) :
    g1 = g ∧
      (o = .classifyFailed ∨ o = .rejectedPolicy ∨ o = .publishFailed →
        ∀ w2 : World, w.clockAtCheck ≤ w2.clockAtCheck →
          ∃ (m : Message) (chat : Chat), update = ⟨some m⟩ ∧ m.Chat = some chat ∧
            classifierCalls (processUpdate toLower w2 channelName g1 update).effects =
              [chatCompletionRequest w2 m.Text] ∧
            (processUpdate toLower w2 channelName g1 update).outcome? ≠ some .rateLimited ∧
            (processUpdate toLower w2 channelName g1 update).outcome? ≠ some .duplicate ∧
            duplicateNotice ∉ repliesTo chat.ID
              (processUpdate toLower w2 channelName g1 update).effects) := by
  have hg : g1 = g := gate_eq_of_not_published toLower w channelName g g1 update effects o h hne
  refine ⟨hg, ?_⟩
  intro ho w2 hclock
  have ho4 : o = .classifyFailed ∨ o = .rejectedPolicy ∨ o = .publishFailed ∨ o = .published := by
    rcases ho with h1 | h1 | h1
    · exact Or.inl h1
    · exact Or.inr (Or.inl h1)
    · exact Or.inr (Or.inr (Or.inl h1))
  obtain ⟨m, sender, chat, rfl, hfrom, hchat, hT, hs, hnl, hnd⟩ :=
    passed_gate_of_outcome toLower w channelName g g1 _ effects o h ho4
  subst hg
  have hnl2 : ∀ t, g1.userLastMessageTime sender.ID = some t →
      rateLimitDuration ≤ w2.clockAtCheck - t := by
    intro t ht
    have := hnl t ht
    omega
  have hp := proceeds_to_classifier toLower w2 channelName g1 m sender chat hfrom hchat hT hs
    hnl2 hnd
  exact ⟨m, chat, rfl, hchat, hp.2.1, hp.2.2.1, hp.2.2.2.1, hp.2.2.2.2.2⟩

/-- Witness of C3: the classifier times out on a first text of user 7 at clock
100; the gate is still empty afterwards, and the same text sent again at clock
101 reaches the classifier again. -/
theorem gate_unchanged_unless_published_witness :
    Gate.empty = Gate.empty ∧
      classifierCalls (processUpdate lowerBasic (World.classifierDown 101) "@cry" Gate.empty
          (Update.text ⟨7, "u"⟩ ⟨70⟩ "тяжело")).effects =
        [chatCompletionRequest (World.classifierDown 101) "тяжело"] ∧
      (processUpdate lowerBasic (World.classifierDown 101) "@cry" Gate.empty
          (Update.text ⟨7, "u"⟩ ⟨70⟩ "тяжело")).outcome? ≠ some .duplicate := by
  have h := gate_unchanged_unless_published lowerBasic (World.classifierDown 100) "@cry"
    Gate.empty Gate.empty (Update.text ⟨7, "u"⟩ ⟨70⟩ "тяжело")
    [.CreateChatCompletion (chatCompletionRequest (World.classifierDown 100) "тяжело"),
      .Send (.NewMessage 70 classifyFailedNotice)] .classifyFailed rfl (by decide)
  obtain ⟨m, chat, hm, _, hcalls, _, hdup, _⟩ :=
    h.2 (Or.inl rfl) (World.classifierDown 101) (by decide)
  cases hm
  exact ⟨h.1, hcalls, hdup⟩

/-- C4: when the classifier call succeeds and its first choice has content `c`,
`verifyMessageWithOpenAI` returns a nil error, the normalised content
(`c` trimmed of surrounding white space and lower-cased) as raw answer, and as
verdict whether that normalised content is exactly "да". So a content whose
trimmed form does not have two runes ("нет", "да.", the empty string, any
longer text) is rejected, and the order of trimming and lower-casing does not
matter. -/
theorem verdict_normalisation (toLower : Char → Char) (w : World) (message : String)
    (resp : ChatCompletionResponse) (choice : ChatCompletionChoice)
    (rest : List ChatCompletionChoice)
    (hcall : w.CreateChatCompletion (chatCompletionRequest w message) = .ok resp)
    (hchoices : resp.Choices = choice :: rest) :
    verifyMessageWithOpenAI toLower w message =
        .returned (decide (ToLower toLower (TrimSpace choice.Message.Content) = "да"))
          (ToLower toLower (TrimSpace choice.Message.Content)) none ∧
      ((TrimSpace choice.Message.Content).length ≠ 2 →
        verifyMessageWithOpenAI toLower w message =
          .returned false (ToLower toLower (TrimSpace choice.Message.Content)) none) ∧
      (choice.Message.Content = "нет" ∨ choice.Message.Content = "да." ∨
          choice.Message.Content = "" →
        verifyMessageWithOpenAI toLower w message =
          .returned false (ToLower toLower (TrimSpace choice.Message.Content)) none) ∧
      ((∀ r, IsSpace (toLower r) = IsSpace r) →
        ToLower toLower (TrimSpace choice.Message.Content) =
          TrimSpace (ToLower toLower choice.Message.Content)) := by
  have hmain : verifyMessageWithOpenAI toLower w message =
      .returned (decide (ToLower toLower (TrimSpace choice.Message.Content) = "да"))
        (ToLower toLower (TrimSpace choice.Message.Content)) none := by
    simp only [verifyMessageWithOpenAI, hcall, hchoices]
  have hshort : (TrimSpace choice.Message.Content).length ≠ 2 →
      verifyMessageWithOpenAI toLower w message =
        .returned false (ToLower toLower (TrimSpace choice.Message.Content)) none := by
    intro hlen
    rw [hmain]
    have hne : ToLower toLower (TrimSpace choice.Message.Content) ≠ "да" := by
      intro heq
      apply hlen
      rw [← ToLower_length toLower, heq]
      rfl
    simp [hne]
  refine ⟨hmain, hshort, ?_, fun hspace => ToLower_TrimSpace_comm toLower hspace _⟩
  intro hc
  apply hshort
  rcases hc with hc | hc | hc <;> rw [hc] <;> decide

/-- Witness of C4: the classifier answers " ДА" followed by a line feed; with
the sample rune mapping the answer normalises to "да" and is approved. -/
theorem verdict_normalisation_witness :
    verifyMessageWithOpenAI lowerBasic (World.answering " ДА\n" 42 100 101) "тяжело" =
        .returned true "да" none ∧
      ToLower lowerBasic (TrimSpace " ДА\n") = TrimSpace (ToLower lowerBasic " ДА\n") := by
  have h := verdict_normalisation lowerBasic (World.answering " ДА\n" 42 100 101) "тяжело"
    { Choices := [{ Message := { Role := "assistant", Content := " ДА\n" } }] }
    { Message := { Role := "assistant", Content := " ДА\n" } } [] rfl rfl
  refine ⟨?_, h.2.2.2 lowerBasic_IsSpace⟩
  rw [h.1]
  decide

/-- Counterexample to C5 as stated: user 7 publishes a text at clock 100
(committed at 101) and resends exactly the same text at clock 102. The two
replies are the confirmation and then the cooldown notice; the duplicate notice
is not sent. The classifier was called once, for the first message. -/
theorem immediate_resend_gets_cooldown_notice :
    repliesTo 70 (processUpdates lowerBasic "@cry" Gate.empty
        [.update (Update.text ⟨7, "u"⟩ ⟨70⟩ "тяжело") (World.answering "да" 42 100 101),
          .update (Update.text ⟨7, "u"⟩ ⟨70⟩ "тяжело") (World.answering "да" 43 102 103)]).effects =
      ["✅ Сообщение опубликовано: https://t.me/cry/42", rateLimitedNotice] ∧
    duplicateNotice ∉ repliesTo 70 (processUpdates lowerBasic "@cry" Gate.empty
        [.update (Update.text ⟨7, "u"⟩ ⟨70⟩ "тяжело") (World.answering "да" 42 100 101),
          .update (Update.text ⟨7, "u"⟩ ⟨70⟩ "тяжело") (World.answering "да" 43 102 103)]).effects ∧
    (classifierCalls (processUpdates lowerBasic "@cry" Gate.empty
        [.update (Update.text ⟨7, "u"⟩ ⟨70⟩ "тяжело") (World.answering "да" 42 100 101),
          .update (Update.text ⟨7, "u"⟩ ⟨70⟩ "тяжело") (World.answering "да" 43 102 103)]).effects).length
      = 1 := by
  decide

/-- C5 as amended: after a user's text has been published, the same text from
the same user gets the cooldown notice while less than the rate limit window
has passed since the commit, and the duplicate notice from then on; in both
cases nothing else happens: no classifier call, no channel post, no change of
the gate. -/
theorem resend_after_publish (toLower : Char → Char) (w1 w2 : World) (channelName : String)
    (g g1 : Gate) (m : Message) (chat : Chat) (effects : List Effect)
    (hchat : m.Chat = some chat)
    (h : processUpdate toLower w1 channelName g ⟨some m⟩ = .completed g1 effects .published) :
    (w2.clockAtCheck - w1.clockAtCommit < rateLimitDuration →
        processUpdate toLower w2 channelName g1 ⟨some m⟩ =
          .completed g1 [.Send (.NewMessage chat.ID rateLimitedNotice)] .rateLimited) ∧
      (rateLimitDuration ≤ w2.clockAtCheck - w1.clockAtCommit →
        processUpdate toLower w2 channelName g1 ⟨some m⟩ =
          .completed g1 [.Send (.NewMessage chat.ID duplicateNotice)] .duplicate) := by
  obtain ⟨m1, sender, chat1, hm, hfrom, hchat1, hT, hs, hnl, hnd⟩ :=
    passed_gate_of_outcome toLower w1 channelName g g1 _ effects .published h
      (Or.inr (Or.inr (Or.inr rfl)))
  cases hm
  rcases processUpdate_allowed toLower w1 channelName g m sender chat1 hfrom hchat1 hT hs hnl hnd
    with h1 | h1 | h1 | h1 | ⟨channelMsg, hsend, h1⟩ <;> rw [h1] at h <;> cases h
  rw [processUpdate_gate toLower w2 channelName _ m sender hfrom hT hs]
  constructor
  · intro hwin
    have hlt : Since w2.clockAtCheck w1.clockAtCommit < rateLimitDuration :=
      (Since_lt_iff _ _).2 hwin
    simp [Gate.commit, hlt, reply, hchat]
  · intro hwin
    have hge : ¬ Since w2.clockAtCheck w1.clockAtCommit < rateLimitDuration := by
      rw [Since_lt_iff]; omega
    simp [Gate.commit, hge, reply, hchat]

/-- Witness of C5 as amended: the text published at clock 100 and committed at
101 comes again at clock 102 and gets the cooldown notice. -/
theorem resend_after_publish_witness :
    processUpdate lowerBasic (World.answering "да" 43 102 103) "@cry"
        (Gate.empty.commit 7 101 "тяжело") (Update.text ⟨7, "u"⟩ ⟨70⟩ "тяжело") =
      .completed (Gate.empty.commit 7 101 "тяжело")
        [.Send (.NewMessage 70 rateLimitedNotice)] .rateLimited :=
  (resend_after_publish lowerBasic (World.answering "да" 42 100 101)
    (World.answering "да" 43 102 103) "@cry" Gate.empty (Gate.empty.commit 7 101 "тяжело")
    { MessageID := 0, From := some ⟨7, "u"⟩, Chat := some ⟨70⟩, Text := "тяжело" } ⟨70⟩ _ rfl
    rfl).1 (by rw [rateLimitDuration_eq]; decide)

/-- C6 fails on the code: when the classifier answers the first text of user 7
with an empty list of choices, `resp.Choices[0]` panics: the body makes the
classifier call and nothing more, the loop crashes, and the `/start` of user 8
that is next in the channel is never answered. An update whose message has no
sender panics at `update.Message.From.ID` before any call is made. -/
theorem empty_choices_crash_the_loop :
    verifyMessageWithOpenAI lowerBasic (World.noChoices 100) "тяжело" = .indexOutOfRange ∧
    (processUpdates lowerBasic "@cry" Gate.empty
        [.update (Update.text ⟨7, "u"⟩ ⟨70⟩ "тяжело") (World.noChoices 100),
          .update (Update.text ⟨8, "v"⟩ ⟨80⟩ "/start") (World.answering "да" 42 101 102)]
      ).isCrashed = true ∧
    (processUpdates lowerBasic "@cry" Gate.empty
        [.update (Update.text ⟨7, "u"⟩ ⟨70⟩ "тяжело") (World.noChoices 100),
          .update (Update.text ⟨8, "v"⟩ ⟨80⟩ "/start") (World.answering "да" 42 101 102)]
      ).effects = [.CreateChatCompletion (chatCompletionRequest (World.noChoices 100) "тяжело")] ∧
    (processUpdates lowerBasic "@cry" Gate.empty
        [.update ⟨some { MessageID := 0, From := none, Chat := some ⟨70⟩, Text := "тяжело" }⟩
          (World.answering "да" 42 100 101)]).isCrashed = true := by
  exact ⟨rfl, rfl, rfl, rfl⟩

/-- C7 fails on the code at the inputs on which the body panics: for a text
message of user 7 in chat 70 that the classifier answers with an empty list of
choices, and for a text message without a sender, no message at all is sent to
chat 70, where the claim promises exactly one. -/
theorem no_reply_when_body_panics :
    repliesTo 70 (processUpdate lowerBasic (World.noChoices 100) "@cry" Gate.empty
        (Update.text ⟨7, "u"⟩ ⟨70⟩ "тяжело")).effects = [] ∧
    (processUpdate lowerBasic (World.noChoices 100) "@cry" Gate.empty
        (Update.text ⟨7, "u"⟩ ⟨70⟩ "тяжело")).outcome? = none ∧
    repliesTo 70 (processUpdate lowerBasic (World.answering "да" 42 100 101) "@cry" Gate.empty
        ⟨some { MessageID := 0, From := none, Chat := some ⟨70⟩, Text := "тяжело" }⟩).effects
      = [] := by
  decide

/-- C8: the bootstrap command `/start` from any user in any gate state is
answered with the rules text and nothing else happens: no classifier call, no
channel post, and the gate state is the one before. -/
theorem start_bypasses_pipeline (toLower : Char → Char) (w : World) (channelName : String)
    (g : Gate) (m : Message) (sender : User) (chat : Chat)
    (hfrom : m.From = some sender) (hchat : m.Chat = some chat) (htext : m.Text = "/start") :
    processUpdate toLower w channelName g ⟨some m⟩ =
        .completed g [.Send (.NewMessage chat.ID rulesMessage)] .rules ∧
      classifierCalls (processUpdate toLower w channelName g ⟨some m⟩).effects = [] ∧
      channelPosts (processUpdate toLower w channelName g ⟨some m⟩).effects = [] ∧
      repliesTo chat.ID (processUpdate toLower w channelName g ⟨some m⟩).effects =
        [rulesMessage] := by
  have h : processUpdate toLower w channelName g ⟨some m⟩ =
      .completed g [.Send (.NewMessage chat.ID rulesMessage)] .rules := by
    simp [processUpdate, hfrom, htext, reply, hchat]
  rw [h]
  simp [Result.effects, classifierCalls, channelPosts, repliesTo]

/-- Witness of C8: user 7 is inside the cooldown window (recorded at clock 100,
now 101) and sends `/start`. -/
theorem start_bypasses_pipeline_witness :
    processUpdate lowerBasic (World.answering "да" 42 101 102) "@cry"
          (Gate.empty.commit 7 100 "/start") (Update.text ⟨7, "u"⟩ ⟨70⟩ "/start") =
        .completed (Gate.empty.commit 7 100 "/start")
          [.Send (.NewMessage 70 rulesMessage)] .rules ∧
      classifierCalls (processUpdate lowerBasic (World.answering "да" 42 101 102) "@cry"
          (Gate.empty.commit 7 100 "/start") (Update.text ⟨7, "u"⟩ ⟨70⟩ "/start")).effects = [] ∧
      channelPosts (processUpdate lowerBasic (World.answering "да" 42 101 102) "@cry"
          (Gate.empty.commit 7 100 "/start") (Update.text ⟨7, "u"⟩ ⟨70⟩ "/start")).effects = [] ∧
      repliesTo 70 (processUpdate lowerBasic (World.answering "да" 42 101 102) "@cry"
          (Gate.empty.commit 7 100 "/start") (Update.text ⟨7, "u"⟩ ⟨70⟩ "/start")).effects =
        [rulesMessage] :=
  start_bypasses_pipeline lowerBasic (World.answering "да" 42 101 102) "@cry"
    (Gate.empty.commit 7 100 "/start") _ ⟨7, "u"⟩ ⟨70⟩ rfl rfl rfl

/-- C9: when a message is published, the confirmation sent to the user is the
text "✅ Сообщение опубликовано: " followed by "https://t.me/", the channel name
without its leading "@" (the channel name itself when it has none), "/", and
the decimal numeral of the identifier of the message Telegram reports for the
channel post. -/
theorem deep_link_format (toLower : Char → Char) (w : World) (channelName : String)
    (g g1 : Gate) (m : Message) (chat : Chat) (effects : List Effect)
    (hchat : m.Chat = some chat)
    (h : processUpdate toLower w channelName g ⟨some m⟩ = .completed g1 effects .published) :
    ∃ channelMsg : Message,
      w.Send (.NewMessageToChannel channelName m.Text) = .ok channelMsg ∧
      effects.getLast? = some (.Send (.NewMessage chat.ID
        ("✅ Сообщение опубликовано: " ++
          ("https://t.me/" ++ channelWithoutAt channelName ++ "/" ++
            Itoa channelMsg.MessageID)))) ∧
      repliesTo chat.ID effects =
        ["✅ Сообщение опубликовано: " ++
          ("https://t.me/" ++ channelWithoutAt channelName ++ "/" ++
            Itoa channelMsg.MessageID)] := by
  obtain ⟨m1, sender, chat1, hm, hfrom, hchat1, hT, hs, hnl, hnd⟩ :=
    passed_gate_of_outcome toLower w channelName g g1 _ effects .published h
      (Or.inr (Or.inr (Or.inr rfl)))
  cases hm
  rw [hchat] at hchat1
  cases hchat1
  rcases processUpdate_allowed toLower w channelName g m sender chat hfrom hchat hT hs hnl hnd
    with h1 | h1 | h1 | h1 | ⟨channelMsg, hsend, h1⟩ <;> rw [h1] at h <;> cases h
  refine ⟨channelMsg, hsend, ?_, ?_⟩
  · simp [link, TrimPrefix_at]
  · simp [repliesTo, link, TrimPrefix_at]

/-- Witness of C9: the channel is "@cry" and Telegram numbers the post 42. -/
theorem deep_link_format_witness :
    ∃ channelMsg : Message,
      (World.answering "да" 42 100 101).Send (.NewMessageToChannel "@cry" "тяжело") =
        .ok channelMsg ∧
      [Effect.CreateChatCompletion (chatCompletionRequest (World.answering "да" 42 100 101)
          "тяжело"),
        Effect.Send (.NewMessageToChannel "@cry" "тяжело"),
        Effect.Send (.NewMessage 70 "✅ Сообщение опубликовано: https://t.me/cry/42")].getLast? =
        some (.Send (.NewMessage 70
          ("✅ Сообщение опубликовано: " ++
            ("https://t.me/" ++ channelWithoutAt "@cry" ++ "/" ++ Itoa channelMsg.MessageID)))) ∧
      repliesTo 70
        [Effect.CreateChatCompletion (chatCompletionRequest (World.answering "да" 42 100 101)
          "тяжело"),
        Effect.Send (.NewMessageToChannel "@cry" "тяжело"),
        Effect.Send (.NewMessage 70 "✅ Сообщение опубликовано: https://t.me/cry/42")] =
        ["✅ Сообщение опубликовано: " ++
          ("https://t.me/" ++ channelWithoutAt "@cry" ++ "/" ++ Itoa channelMsg.MessageID)] :=
  deep_link_format lowerBasic (World.answering "да" 42 100 101) "@cry" Gate.empty
    (Gate.empty.commit 7 101 "тяжело")
    { MessageID := 0, From := some ⟨7, "u"⟩, Chat := some ⟨70⟩, Text := "тяжело" } ⟨70⟩ _ rfl rfl

/-- C10: a text message from a user who has no record, or whose record is at
least the rate limit window old and holds another text, passes the gate check:
the classifier is called with the request for this text, the body does not end
in the rate-limited or the duplicate branch, and neither the cooldown nor the
duplicate notice is sent. In a sound gate a user without a time record has no
text record either, the lookup gives the empty string, and the text is not
empty. -/
theorem gate_allows_otherwise (toLower : Char → Char) (w : World) (channelName : String)
    (g : Gate) (m : Message) (sender : User) (chat : Chat)
    (hg : g.Sound) (hfrom : m.From = some sender) (hchat : m.Chat = some chat)
    (hT : m.Text ≠ "") (hs : m.Text ≠ "/start")
    (hallow : g.userLastMessageTime sender.ID = none ∨
      ∃ t1, g.userLastMessageTime sender.ID = some t1 ∧
        rateLimitDuration ≤ w.clockAtCheck - t1 ∧ g.userLastMessage sender.ID ≠ some m.Text) :
    (processUpdate toLower w channelName g ⟨some m⟩).effects.head? =
        some (.CreateChatCompletion (chatCompletionRequest w m.Text)) ∧
      classifierCalls (processUpdate toLower w channelName g ⟨some m⟩).effects =
        [chatCompletionRequest w m.Text] ∧
      (processUpdate toLower w channelName g ⟨some m⟩).outcome? ≠ some .rateLimited ∧
      (processUpdate toLower w channelName g ⟨some m⟩).outcome? ≠ some .duplicate ∧
      rateLimitedNotice ∉ repliesTo chat.ID
        (processUpdate toLower w channelName g ⟨some m⟩).effects ∧
      duplicateNotice ∉ repliesTo chat.ID
        (processUpdate toLower w channelName g ⟨some m⟩).effects := by
  have hnl : ∀ t, g.userLastMessageTime sender.ID = some t →
      rateLimitDuration ≤ w.clockAtCheck - t := by
    intro t ht
    rcases hallow with hnone | ⟨t1, ht1, hwin, _⟩
    · rw [hnone] at ht; cases ht
    · rw [ht1] at ht; cases ht; exact hwin
  have hnd : (g.userLastMessage sender.ID).getD "" ≠ m.Text := by
    cases hrec : g.userLastMessage sender.ID with
    | none => exact fun h => hT h.symm
    | some T1 =>
      rcases hallow with hnone | ⟨t1, _, _, hne⟩
      · rw [((hg sender.ID).1).1 hnone] at hrec; cases hrec
      · intro h
        apply hne
        rw [hrec]
        exact congrArg some h
  exact proceeds_to_classifier toLower w channelName g m sender chat hfrom hchat hT hs hnl hnd

/-- Witness of C10: a user unknown to the gate sends a first text. -/
theorem gate_allows_otherwise_witness :
    classifierCalls (processUpdate lowerBasic (World.answering "да" 42 100 101) "@cry" Gate.empty
        (Update.text ⟨7, "u"⟩ ⟨70⟩ "Помогите мне, очень тяжело на душе")).effects =
      [chatCompletionRequest (World.answering "да" 42 100 101)
        "Помогите мне, очень тяжело на душе"] ∧
    duplicateNotice ∉ repliesTo 70 (processUpdate lowerBasic (World.answering "да" 42 100 101)
        "@cry" Gate.empty
        (Update.text ⟨7, "u"⟩ ⟨70⟩ "Помогите мне, очень тяжело на душе")).effects :=
  have h := gate_allows_otherwise lowerBasic (World.answering "да" 42 100 101) "@cry" Gate.empty
    { MessageID := 0, From := some ⟨7, "u"⟩, Chat := some ⟨70⟩,
      Text := "Помогите мне, очень тяжело на душе" } ⟨7, "u"⟩ ⟨70⟩
    Gate.empty_sound rfl rfl (by decide) (by decide) (Or.inl rfl)
  ⟨h.2.1, h.2.2.2.2.2⟩

end CryOut
